import Mathlib

/-!
Verification of the content deduplication and state-reconciliation engine of
the WWFC Bluesky news bot (a Cloudflare Worker, TypeScript).

Shallow embedding notes:
* `src/entities/posted-state/types.ts` gives the persisted data model
  (`SourceState`, `PostedState`, `DEFAULT_SOURCE_STATE`, `DEFAULT_STATE`).
  Item ids and timestamps are strings; `publishedAt` on content items is a JS
  `Date`, modelled by its `getTime()` value as an `Int` (milliseconds).
  The TypeScript `SourceState` interface declares only `postedIds`,
  `lastUpdatedAt` and `consecutiveFailures`; the `/status` HTTP handler
  additionally reads a property named `lastCheckedAt` from the same object.
  JavaScript evaluates a read of an absent property to `undefined`, so we
  model property presence by an `Option String` field `lastCheckedAt` that is
  `none` in the defaults and is never written by any operation.
* `src/entities/posted-state/state-manager.ts` is a closure over a KV
  namespace holding `cachedState` and `isDirty`; we model the closure state
  as `ManagerState` and the KV namespace as `KVStore` (its single key
  `posted-state`, plus a counter of `put` calls so that durable-write claims
  are statable).  Operations that `throw` when state is not loaded return
  `Option`.  `new Date().toISOString()` is modelled by an explicit `now`
  argument.
* `src/app/index.ts` is the orchestrator; `processNewContent` is modelled as
  a function of the cycle's external inputs (fetch results, Bluesky login
  success, per-item publish outcomes) returning the final manager state, the
  Sentry events raised, the published batch, and whether the function threw.
* JavaScript `Array.prototype.sort` with the comparator
  `(a, b) => a.publishedAt.getTime() - b.publishedAt.getTime()` is a stable
  sort ascending by `publishedAt`; it is modelled by `List.insertionSort`
  with the relation `publishLE` (Mathlib's insertion sort is stable and we
  only rely on sortedness and permutation).
-/

namespace WwfcBot

/-- From `state-manager.ts`: maximum number of posted IDs kept per source. -/
def MAX_POSTED_IDS : Nat := 1000

/-- From `app/index.ts`: number of consecutive failures before alerting. -/
def ALERT_FAILURE_THRESHOLD : Nat := 3

/-- From `posted-state/types.ts`: state stored for each source.
`lastCheckedAt` models JS property presence (see file header); the
TypeScript interface does not declare it and nothing ever writes it. -/
structure SourceState where
  postedIds : List String
  lastUpdatedAt : String
  consecutiveFailures : Nat
  lastCheckedAt : Option String
deriving DecidableEq, Repr

/-- From `posted-state/types.ts`: complete state stored in KV. -/
structure PostedState where
  youtube : SourceState
  wwfcNews : SourceState
deriving DecidableEq, Repr

/-- From `posted-state/types.ts`: `DEFAULT_SOURCE_STATE`
(`new Date(0).toISOString()` is the epoch string). -/
def DEFAULT_SOURCE_STATE : SourceState :=
  { postedIds := []
    lastUpdatedAt := "1970-01-01T00:00:00.000Z"
    consecutiveFailures := 0
    lastCheckedAt := none }

/-- From `posted-state/types.ts`: `DEFAULT_STATE`. -/
def DEFAULT_STATE : PostedState :=
  { youtube := DEFAULT_SOURCE_STATE, wwfcNews := DEFAULT_SOURCE_STATE }

/-- From `posted-state/types.ts`: `SourceKey = keyof PostedState`. -/
inductive SourceKey where
  | youtube
  | wwfcNews
deriving DecidableEq, Repr

/-- Property access `state[source]` on a `PostedState`. -/
def getSource (st : PostedState) : SourceKey → SourceState
  | SourceKey.youtube => st.youtube
  | SourceKey.wwfcNews => st.wwfcNews

/-- Property update `state[source] = ss` on a `PostedState`. -/
def setSource (st : PostedState) : SourceKey → SourceState → PostedState
  | SourceKey.youtube, ss => { st with youtube := ss }
  | SourceKey.wwfcNews, ss => { st with wwfcNews := ss }

/-!
Pure per-`PostedState` transforms.  Each is the in-memory mutation performed
by the correspondingly named operation in `state-manager.ts` (shared between
the sync/batch variant and the legacy read-then-write variant, which perform
the identical field updates).
-/

/-- TS `markAsPosted(Sync)`:
`postedIds = [itemId, ...old].slice(0, MAX_POSTED_IDS)`, stamp
`lastUpdatedAt`, zero `consecutiveFailures`. -/
def markAsPostedState (st : PostedState) (source : SourceKey) (itemId : String)
    (now : String) : PostedState :=
  let ss := getSource st source
  setSource st source
    { ss with
      postedIds := (itemId :: ss.postedIds).take MAX_POSTED_IDS
      lastUpdatedAt := now
      consecutiveFailures := 0 }

/-- TS `markManyAsPosted(Sync)`:
`postedIds = [...itemIds, ...old].slice(0, MAX_POSTED_IDS)`, stamp
`lastUpdatedAt`, zero `consecutiveFailures`. -/
def markManyAsPostedState (st : PostedState) (source : SourceKey)
    (itemIds : List String) (now : String) : PostedState :=
  let ss := getSource st source
  setSource st source
    { ss with
      postedIds := (itemIds ++ ss.postedIds).take MAX_POSTED_IDS
      lastUpdatedAt := now
      consecutiveFailures := 0 }

/-- TS `recordFailure(Sync)`: `consecutiveFailures += 1`, stamp
`lastUpdatedAt`. -/
def recordFailureState (st : PostedState) (source : SourceKey) (now : String) :
    PostedState :=
  let ss := getSource st source
  setSource st source
    { ss with
      consecutiveFailures := ss.consecutiveFailures + 1
      lastUpdatedAt := now }

/-- TS `resetFailures(Sync)`: only when the counter is non-zero, zero it and
stamp `lastUpdatedAt`; otherwise leave the state untouched. -/
def resetFailuresState (st : PostedState) (source : SourceKey) (now : String) :
    PostedState :=
  let ss := getSource st source
  if 0 < ss.consecutiveFailures then
    setSource st source { ss with consecutiveFailures := 0, lastUpdatedAt := now }
  else st

/-- The KV namespace binding (`env.POSTED_ITEMS`) restricted to the single
key `posted-state`, plus a counter of `kv.put` calls so durable-write claims
are statable. -/
structure KVStore where
  value : Option PostedState
  putCount : Nat
deriving DecidableEq, Repr

/-- A `kv.put(STATE_KEY, ...)` call. -/
def kvPut (kv : KVStore) (st : PostedState) : KVStore :=
  { value := some st, putCount := kv.putCount + 1 }

/-- The closure state of `createStateManager`: the KV namespace, the cached
state and the dirty flag. -/
structure ManagerState where
  kv : KVStore
  cachedState : Option PostedState
  isDirty : Bool
deriving DecidableEq, Repr

/-- TS `createStateManager(kv)`: fresh manager, nothing cached, not dirty. -/
def createStateManager (kv : KVStore) : ManagerState :=
  { kv := kv, cachedState := none, isDirty := false }

/-- TS `getState()`: return the cache if loaded, otherwise read KV (default
state when the key is absent) and cache the result.  Performs no `put`. -/
def getState (m : ManagerState) : PostedState × ManagerState :=
  match m.cachedState with
  | some st => (st, m)
  | none =>
      let st := m.kv.value.getD DEFAULT_STATE
      (st, { m with cachedState := some st })

/-- TS `loadState()`: read KV into the cache and clear the dirty flag. -/
def loadState (m : ManagerState) : PostedState × ManagerState :=
  let st := m.kv.value.getD DEFAULT_STATE
  (st, { m with cachedState := some st, isDirty := false })

/-- TS `saveIfDirty()`: write the cached state to KV only when dirty and loaded;
returns whether a write occurred and clears the dirty flag on success. -/
def saveIfDirty (m : ManagerState) : Bool × ManagerState :=
  match m.isDirty, m.cachedState with
  | false, _ => (false, m)
  | true, none => (false, m)
  | true, some st => (true, { m with kv := kvPut m.kv st, isDirty := false })

/-- TS `saveState(state)`: unconditional `kv.put`, cache the state, clear the
dirty flag. -/
def saveState (m : ManagerState) (st : PostedState) : ManagerState :=
  { kv := kvPut m.kv st, cachedState := some st, isDirty := false }

/-- TS `getSourceState(source)` (the `?? DEFAULT_SOURCE_STATE` fallback is
unreachable in the typed model: both keys are always present). -/
def getSourceState (m : ManagerState) (source : SourceKey) :
    SourceState × ManagerState :=
  let p := getState m
  (getSource p.1 source, p.2)

/-- TS `isPostedSync(source, itemId)`: membership test against the cached
state's `postedIds`; `none` models the thrown `State not loaded` error. -/
def isPostedSync (m : ManagerState) (source : SourceKey) (itemId : String) :
    Option Bool :=
  match m.cachedState with
  | none => none
  | some st => some ((getSource st source).postedIds.contains itemId)

/-- TS `markAsPostedSync(source, itemId)`: in-memory mark, sets the dirty flag;
`none` models the thrown `State not loaded` error. -/
def markAsPostedSync (m : ManagerState) (source : SourceKey) (itemId : String)
    (now : String) : Option ManagerState :=
  match m.cachedState with
  | none => none
  | some st =>
      some { m with
             cachedState := some (markAsPostedState st source itemId now)
             isDirty := true }

/-- TS `markManyAsPostedSync(source, itemIds)`: early return on an empty list,
otherwise in-memory mark and set the dirty flag; `none` models the thrown
`State not loaded` error. -/
def markManyAsPostedSync (m : ManagerState) (source : SourceKey)
    (itemIds : List String) (now : String) : Option ManagerState :=
  match m.cachedState with
  | none => none
  | some st =>
      if itemIds.length = 0 then some m
      else
        some { m with
               cachedState := some (markManyAsPostedState st source itemIds now)
               isDirty := true }

/-- TS `recordFailureSync(source)`: in-memory increment, sets the dirty flag,
returns the new count; `none` models the thrown `State not loaded` error. -/
def recordFailureSync (m : ManagerState) (source : SourceKey) (now : String) :
    Option (Nat × ManagerState) :=
  match m.cachedState with
  | none => none
  | some st =>
      some ((getSource st source).consecutiveFailures + 1,
            { m with
              cachedState := some (recordFailureState st source now)
              isDirty := true })

/-- TS `resetFailuresSync(source)`: only when the counter is non-zero, zero it
in memory and set the dirty flag; `none` models the thrown
`State not loaded` error. -/
def resetFailuresSync (m : ManagerState) (source : SourceKey) (now : String) :
    Option ManagerState :=
  match m.cachedState with
  | none => none
  | some st =>
      if 0 < (getSource st source).consecutiveFailures then
        some { m with
               cachedState := some (resetFailuresState st source now)
               isDirty := true }
      else some m

/-- Legacy `markAsPosted(source, itemId)`: read state, mark, `saveState`. -/
def markAsPosted (m : ManagerState) (source : SourceKey) (itemId : String)
    (now : String) : ManagerState :=
  let p := getState m
  saveState p.2 (markAsPostedState p.1 source itemId now)

/-- Legacy `markManyAsPosted(source, itemIds)`: early return on an empty
list, otherwise read state, mark, `saveState`. -/
def markManyAsPosted (m : ManagerState) (source : SourceKey)
    (itemIds : List String) (now : String) : ManagerState :=
  if itemIds.length = 0 then m
  else
    let p := getState m
    saveState p.2 (markManyAsPostedState p.1 source itemIds now)

/-- Legacy `recordFailure(source)`: read state, increment, `saveState`,
return the new count. -/
def recordFailure (m : ManagerState) (source : SourceKey) (now : String) :
    Nat × ManagerState :=
  let p := getState m
  ((getSource p.1 source).consecutiveFailures + 1,
   saveState p.2 (recordFailureState p.1 source now))

/-- Legacy `resetFailures(source)`: read state; only when the counter is
non-zero, zero it and `saveState` (otherwise no write). -/
def resetFailures (m : ManagerState) (source : SourceKey) (now : String) :
    ManagerState :=
  let p := getState m
  if 0 < (getSource p.1 source).consecutiveFailures then
    saveState p.2 (resetFailuresState p.1 source now)
  else p.2

/-- TS `getFailureCountSync(source)`; `none` models the thrown error. -/
def getFailureCountSync (m : ManagerState) (source : SourceKey) : Option Nat :=
  match m.cachedState with
  | none => none
  | some st => some (getSource st source).consecutiveFailures

/-- TS `hasPendingChanges()`. -/
def hasPendingChanges (m : ManagerState) : Bool := m.isDirty

/-- TS `clearAllState()`: delete the key, drop the cache, clear dirty. -/
def clearAllState (m : ManagerState) : ManagerState :=
  { kv := { m.kv with value := none }, cachedState := none, isDirty := false }

/-- TS `filterNewItemsSync(source, items)` specialised to content items (the
TypeScript generic is `T extends { id: string }`): keep the items whose `id`
is not in the source's `postedIds` (the `Set` built from `postedIds` has the
same membership as the list); `none` models the thrown error. -/
def filterNewItemsSyncIds (m : ManagerState) (source : SourceKey)
    (ids : List String) : Option (List String) :=
  match m.cachedState with
  | none => none
  | some st =>
      some (ids.filter (fun id => !((getSource st source).postedIds.contains id)))

/-- From `content-item/types.ts`: `ContentType`. -/
inductive ContentType where
  | video
  | article
deriving DecidableEq, Repr

/-- From `content-item/types.ts`: the `source` field,
`'youtube' | 'wwfc-news'`. -/
inductive ContentSource where
  | youtube
  | wwfcNews
deriving DecidableEq, Repr

instance : BEq ContentSource := ⟨fun a b => decide (a = b)⟩

/-- From `content-item/types.ts`: `ContentItem`.  `publishedAt` is the JS
`Date` modelled by its `getTime()` millisecond value.  The `VideoItem` /
`ArticleItem` extras (`videoId`, `category`) carry no reconciliation logic
and are omitted. -/
structure ContentItem where
  id : String
  type : ContentType
  title : String
  url : String
  description : Option String
  thumbnailUrl : Option String
  publishedAt : Int
  source : ContentSource
deriving DecidableEq, Repr

/-- TS `filterNewItemsSync(source, items)` on content items (same filter as
`filterNewItemsSyncIds`, applied to `item.id`). -/
def filterNewItemsSync (m : ManagerState) (source : SourceKey)
    (items : List ContentItem) : Option (List ContentItem) :=
  match m.cachedState with
  | none => none
  | some st =>
      some (items.filter
        (fun item => !((getSource st source).postedIds.contains item.id)))

/-- Async `filterNewItems(source, items)`: loads state if needed (via
`getSourceState`/`getState`), then the same filter. -/
def filterNewItems (m : ManagerState) (source : SourceKey)
    (items : List ContentItem) : List ContentItem × ManagerState :=
  let p := getState m
  (items.filter
     (fun item => !((getSource p.1 source).postedIds.contains item.id)), p.2)

/-- The comparator `(a, b) => a.publishedAt.getTime() - b.publishedAt.getTime()`
read as an ordering relation. -/
def publishLE (a b : ContentItem) : Prop := a.publishedAt ≤ b.publishedAt

instance : DecidableRel publishLE :=
  fun a b => inferInstanceAs (Decidable (a.publishedAt ≤ b.publishedAt))

instance : IsTotal ContentItem publishLE :=
  ⟨fun a b => Int.le_total a.publishedAt b.publishedAt⟩

instance : IsTrans ContentItem publishLE :=
  ⟨fun _ _ _ h1 h2 => le_trans h1 h2⟩

/-- TS `items.sort((a, b) => a.publishedAt.getTime() - b.publishedAt.getTime())`:
JS `Array.prototype.sort` is a stable sort by the comparator, modelled by
stable insertion sort on `publishLE`. -/
def sortByPublishedAt (items : List ContentItem) : List ContentItem :=
  List.insertionSort publishLE items

/-- From `youtube-monitor/model/types.ts`: the fields of `YouTubeVideo` used
by the reconciliation pipeline. -/
structure YouTubeVideo where
  videoId : String
  title : String
  description : Option String
  thumbnailUrl : Option String
  publishedAt : Int
deriving DecidableEq, Repr

/-- From `video-detector.ts`: `buildVideoUrl`. -/
def buildVideoUrl (videoId : String) : String :=
  "https://www.youtube.com/watch?v=" ++ videoId

/-- From `video-detector.ts`: `videoToContentItem`. -/
def videoToContentItem (video : YouTubeVideo) : ContentItem :=
  { id := video.videoId
    type := ContentType.video
    source := ContentSource.youtube
    title := video.title
    url := buildVideoUrl video.videoId
    description := video.description
    thumbnailUrl := video.thumbnailUrl
    publishedAt := video.publishedAt }

/-- From `wwfc-news/model/types.ts`: the fields of `WwfcArticle` used by the
reconciliation pipeline. -/
structure WwfcArticle where
  postId : String
  title : String
  summary : String
  url : String
  publishedAt : Int
  category : String
  thumbnailUrl : String
deriving DecidableEq, Repr

/-- From `article-detector.ts`: `articleToContentItem` (the `category` extra
on `ArticleItem` carries no reconciliation logic and is omitted). -/
def articleToContentItem (article : WwfcArticle) : ContentItem :=
  { id := article.postId
    type := ContentType.article
    source := ContentSource.wwfcNews
    title := article.title
    url := article.url
    description := some article.summary
    thumbnailUrl := some article.thumbnailUrl
    publishedAt := article.publishedAt }

/-- From `video-detector.ts`: `fetchNewVideos`, given the list the YouTube
client returned: convert, filter against posted state, sort oldest first. -/
def fetchNewVideos (fetched : List YouTubeVideo) (m : ManagerState) :
    List ContentItem × ManagerState :=
  let videoItems := fetched.map videoToContentItem
  let p := filterNewItems m SourceKey.youtube videoItems
  (sortByPublishedAt p.1, p.2)

/-- From `article-detector.ts`: `fetchNewArticles`, given the list the WWFC
client returned: convert, filter against posted state, sort oldest first. -/
def fetchNewArticles (fetched : List WwfcArticle) (m : ManagerState) :
    List ContentItem × ManagerState :=
  let articleItems := fetched.map articleToContentItem
  let p := filterNewItems m SourceKey.wwfcNews articleItems
  (sortByPublishedAt p.1, p.2)

/-- From `bluesky-poster/model/types.ts`: `PostResult` (the optional
`uri`/`cid`/`error` fields carry no reconciliation logic and are omitted). -/
structure PostResult where
  success : Bool
  item : ContentItem
deriving DecidableEq, Repr

/-- From `bluesky-poster`: `postContentItems(items, client)` posts the items
sequentially; each item's outcome is supplied by the external publisher
(`publishOk`), and one `PostResult` per item is returned in order. -/
def postContentItems (items : List ContentItem)
    (publishOk : ContentItem → Bool) : List PostResult :=
  items.map (fun item => { success := publishOk item, item := item })

/-- A call into the Sentry error-reporting collaborator, as made by
`app/index.ts`. -/
inductive SentryEvent where
  /-- TS `Sentry.captureException` in a fetch `catch` block: tag
  (`"youtube"` / `"wwfc-news"`) and the consecutive-failure count. -/
  | fetchFailure (source : String) (consecutiveFailures : Nat)
  /-- TS `Sentry.captureMessage` for an individual failed post. -/
  | postFailure (itemId : String)
  /-- TS `Sentry.captureException` on the Bluesky critical path. -/
  | blueskyError
deriving DecidableEq, Repr

/-- From `app/index.ts`: the successful video ids collected by the result
loop of `processPostResults`, in result order. -/
def successfulVideoIds (results : List PostResult) : List String :=
  (results.filter
    (fun r => r.success && r.item.source == ContentSource.youtube)).map
    (fun r => r.item.id)

/-- From `app/index.ts`: the successful article ids collected by the result
loop of `processPostResults`, in result order. -/
def successfulArticleIds (results : List PostResult) : List String :=
  (results.filter
    (fun r => r.success && r.item.source == ContentSource.wwfcNews)).map
    (fun r => r.item.id)

/-- From `app/index.ts`: `processPostResults(results, stateManager)`.
The single loop is split into its projections: the two per-source success
id lists and the per-failure Sentry messages; then each non-empty id list is
committed with the legacy `markManyAsPosted` (which performs its own KV
write). -/
def processPostResults (results : List PostResult) (m : ManagerState)
    (now : String) : ManagerState × List SentryEvent :=
  let successfulVideos := successfulVideoIds results
  let successfulArticles := successfulArticleIds results
  let failureEvents :=
    (results.filter (fun r => !r.success)).map
      (fun r => SentryEvent.postFailure r.item.id)
  let m1 :=
    if 0 < successfulVideos.length then
      markManyAsPosted m SourceKey.youtube successfulVideos now
    else m
  let m2 :=
    if 0 < successfulArticles.length then
      markManyAsPosted m1 SourceKey.wwfcNews successfulArticles now
    else m1
  (m2, failureEvents)

/-- The external inputs of one run of `processNewContent`: the outcome of
each source fetch, whether `createBlueskyClient` (login) succeeds, and the
external publisher's outcome for each item. -/
structure CycleInput where
  videoFetch : Except Unit (List YouTubeVideo)
  articleFetch : Except Unit (List WwfcArticle)
  loginOk : Bool
  publishOk : ContentItem → Bool

/-- The observable outcome of one run of `processNewContent`. -/
structure CycleResult where
  manager : ManagerState
  events : List SentryEvent
  published : List ContentItem
  threw : Bool

/-- First try-block of `processNewContent`: fetch new videos; on success
reset the youtube failure counter, on failure record it and escalate to
Sentry at the `>= ALERT_FAILURE_THRESHOLD` check.  Returns the new items,
the manager and the Sentry events raised. -/
def videoPhase (input : CycleInput) (m : ManagerState) (now : String) :
    List ContentItem × ManagerState × List SentryEvent :=
  match input.videoFetch with
  | Except.ok fetched =>
      let p := fetchNewVideos fetched m
      (p.1, resetFailures p.2 SourceKey.youtube now, [])
  | Except.error _ =>
      let p := recordFailure m SourceKey.youtube now
      ([], p.2,
       if ALERT_FAILURE_THRESHOLD ≤ p.1 then
         [SentryEvent.fetchFailure "youtube" p.1]
       else [])

/-- Second try-block of `processNewContent`: same for WWFC news articles
(Sentry tag `wwfc-news`). -/
def articlePhase (input : CycleInput) (m1 : ManagerState) (now : String) :
    List ContentItem × ManagerState × List SentryEvent :=
  match input.articleFetch with
  | Except.ok fetched =>
      let p := fetchNewArticles fetched m1
      (p.1, resetFailures p.2 SourceKey.wwfcNews now, [])
  | Except.error _ =>
      let p := recordFailure m1 SourceKey.wwfcNews now
      ([], p.2,
       if ALERT_FAILURE_THRESHOLD ≤ p.1 then
         [SentryEvent.fetchFailure "wwfc-news" p.1]
       else [])

/-- Final section of `processNewContent`: return early when there is no new
content, otherwise sort the combined batch by publication date and, if the
Bluesky login succeeds, post it and commit the results; a login failure is
reported and rethrown. -/
def publishPhase (input : CycleInput) (now : String)
    (allNewItems : List ContentItem) (m2 : ManagerState)
    (ev12 : List SentryEvent) : CycleResult :=
  if allNewItems.length = 0 then
    { manager := m2, events := ev12, published := [], threw := false }
  else
    let sorted := sortByPublishedAt allNewItems
    if !input.loginOk then
      { manager := m2
        events := ev12 ++ [SentryEvent.blueskyError]
        published := []
        threw := true }
    else
      let results := postContentItems sorted input.publishOk
      let q := processPostResults results m2 now
      { manager := q.1
        events := ev12 ++ q.2
        published := sorted
        threw := false }

/-- From `app/index.ts`: `processNewContent(env)`.  Creates a fresh state
manager over the KV namespace and runs the two fetch try-blocks and the
publish section in order. -/
def processNewContent (input : CycleInput) (kv : KVStore) (now : String) :
    CycleResult :=
  let m := createStateManager kv
  let s1 := videoPhase input m now
  let s2 := articlePhase input s1.2.1 now
  publishPhase input now (s1.1 ++ s2.1) s2.2.1 (s1.2.2 ++ s2.2.2)

/-- Consecutive scheduled invocations: each cycle constructs a fresh state
manager over the KV namespace left by the previous cycle; returns the final
KV contents and each cycle's Sentry events in order. -/
def runCycles (input : CycleInput) (now : String) :
    Nat → KVStore → KVStore × List (List SentryEvent)
  | 0, kv => (kv, [])
  | Nat.succ n, kv =>
      let r := processNewContent input kv now
      let q := runCycles input now n r.manager.kv
      (q.1, r.events :: q.2)

/-- The per-source object serialised by the `/status` HTTP handler in
`app/index.ts`: it reads `postedIds.length`, a property named
`lastCheckedAt` (absent from the stored type), and `consecutiveFailures`. -/
structure SourceStatus where
  postedCount : Nat
  lastChecked : Option String
  consecutiveFailures : Nat
deriving DecidableEq, Repr

/-- From `app/index.ts`: the `/status` response body (youtube, wwfcNews). -/
def statusView (st : PostedState) : SourceStatus × SourceStatus :=
  ({ postedCount := st.youtube.postedIds.length
     lastChecked := st.youtube.lastCheckedAt
     consecutiveFailures := st.youtube.consecutiveFailures },
   { postedCount := st.wwfcNews.postedIds.length
     lastChecked := st.wwfcNews.lastCheckedAt
     consecutiveFailures := st.wwfcNews.consecutiveFailures })

/-- The states the program can store: the default plus closure under the
four mutations any state-manager operation performs before a save
(mark one, mark many, record a failure, reset failures). -/
inductive ReachableState : PostedState → Prop where
  | base : ReachableState DEFAULT_STATE
  | markOne (st : PostedState) (s : SourceKey) (id now : String) :
      ReachableState st → ReachableState (markAsPostedState st s id now)
  | markMany (st : PostedState) (s : SourceKey) (ids : List String)
      (now : String) :
      ReachableState st → ReachableState (markManyAsPostedState st s ids now)
  | record (st : PostedState) (s : SourceKey) (now : String) :
      ReachableState st → ReachableState (recordFailureState st s now)
  | reset (st : PostedState) (s : SourceKey) (now : String) :
      ReachableState st → ReachableState (resetFailuresState st s now)

/-- Folding a sequence of `markManyAsPostedSync` calls (each call is an id
list and a timestamp); `none` as soon as one call throws. -/
def applyMarkMany (s : SourceKey) :
    ManagerState → List (List String × String) → Option ManagerState
  | m, [] => some m
  | m, c :: rest =>
      match markManyAsPostedSync m s c.1 c.2 with
      | none => none
      | some m' => applyMarkMany s m' rest

/-- The cached `postedIds` of a source (empty when no state is loaded). -/
def postedIdsOf (m : ManagerState) (s : SourceKey) : List String :=
  match m.cachedState with
  | none => []
  | some st => (getSource st s).postedIds

/-! Basic lemmas about the embedding. -/

theorem getSource_setSource_same (st : PostedState) (s : SourceKey)
    (ss : SourceState) : getSource (setSource st s ss) s = ss := by
  cases s <;> rfl

theorem setSource_youtube_wwfcNews (st : PostedState) (ss : SourceState) :
    (setSource st SourceKey.youtube ss).wwfcNews = st.wwfcNews := rfl

theorem setSource_wwfcNews_youtube (st : PostedState) (ss : SourceState) :
    (setSource st SourceKey.wwfcNews ss).youtube = st.youtube := rfl

theorem getState_kv (m : ManagerState) : (getState m).2.kv = m.kv := by
  cases h : m.cachedState <;> simp [getState, h]

theorem getState_isDirty (m : ManagerState) :
    (getState m).2.isDirty = m.isDirty := by
  cases h : m.cachedState <;> simp [getState, h]

theorem getState_cached (m : ManagerState) :
    (getState m).2.cachedState = some (getState m).1 := by
  cases h : m.cachedState <;> simp [getState, h]

theorem getState_of_cached (m : ManagerState) (st : PostedState)
    (h : m.cachedState = some st) : getState m = (st, m) := by
  simp [getState, h]

theorem getState_idem (m : ManagerState) :
    getState (getState m).2 = ((getState m).1, (getState m).2) :=
  getState_of_cached _ _ (getState_cached m)

theorem contains_eq_true_of_mem {a : String} {l : List String} (h : a ∈ l) :
    l.contains a = true := by simpa using h

theorem contains_eq_false_of_not_mem {a : String} {l : List String}
    (h : a ∉ l) : l.contains a = false := by simpa using h

/-! Concrete inputs used by witnesses and counterexamples. -/

/-- A loaded source state whose `postedIds` is exactly `["a"]`. -/
def stA : PostedState :=
  { youtube :=
      { postedIds := ["a"], lastUpdatedAt := "t0", consecutiveFailures := 0
        lastCheckedAt := none }
    wwfcNews := DEFAULT_SOURCE_STATE }

/-- A manager with `stA` loaded into the cache. -/
def mgrA : ManagerState :=
  { kv := { value := some stA, putCount := 0 }
    cachedState := some stA
    isDirty := false }

/-- A content item with id `"a"` (already posted in `stA`). -/
def itemA : ContentItem :=
  { id := "a", type := ContentType.video, title := "A", url := "uA"
    description := none, thumbnailUrl := none, publishedAt := 1
    source := ContentSource.youtube }

/-- A content item with id `"b"` (not posted in `stA`). -/
def itemB : ContentItem :=
  { id := "b", type := ContentType.article, title := "B", url := "uB"
    description := none, thumbnailUrl := none, publishedAt := 2
    source := ContentSource.wwfcNews }

/-!
C5.  For every item list and every session state, `filterNew` returns
exactly the items whose id is not in that source's `postedIds`, preserving
input order.
-/

/-- C5 (confirmed): with a loaded session state, `filterNewItemsSync`
returns no item whose id is in the source's `postedIds`, returns every item
whose id is absent from them, and the output is a sublist of the input (so
input order is preserved). -/
theorem claim_filterNew_exact_partition (m : ManagerState) (st : PostedState)
    (s : SourceKey) (items out : List ContentItem)
    (hm : m.cachedState = some st)
    (hout : filterNewItemsSync m s items = some out) :
    (∀ it ∈ out, it.id ∉ (getSource st s).postedIds)
    ∧ (∀ it ∈ items, it.id ∉ (getSource st s).postedIds → it ∈ out)
    ∧ out.Sublist items := by
  have hdef : out
      = items.filter (fun item => !((getSource st s).postedIds.contains item.id)) := by
    simpa [filterNewItemsSync, hm] using hout.symm
  subst hdef
  refine ⟨?_, ?_, List.filter_sublist items⟩
  · intro it hit
    have h2 := (List.mem_filter.mp hit).2
    simpa using h2
  · intro it hit hnot
    exact List.mem_filter.mpr ⟨hit, by simpa using hnot⟩

/-- Witness for C5 at a concrete session: `postedIds = ["a"]`, items
`[itemA, itemB]`, output `[itemB]`. -/
theorem claim_filterNew_exact_partition_witness :
    (mgrA.cachedState = some stA)
    ∧ (filterNewItemsSync mgrA SourceKey.youtube [itemA, itemB]
         = some [itemB])
    ∧ ((∀ it ∈ [itemB], it.id ∉ (getSource stA SourceKey.youtube).postedIds)
       ∧ (∀ it ∈ [itemA, itemB],
            it.id ∉ (getSource stA SourceKey.youtube).postedIds →
              it ∈ [itemB])
       ∧ List.Sublist [itemB] [itemA, itemB]) :=
  ⟨rfl, by decide,
   claim_filterNew_exact_partition mgrA stA SourceKey.youtube [itemA, itemB]
     [itemB] rfl (by decide)⟩

/-!
C9.  Flush is idempotent: two consecutive `saveIfDirty` calls perform at
most one store write; the second call writes nothing and returns `false`.
-/

/-- C9 (confirmed): for every manager state, the second of two consecutive
`saveIfDirty` calls returns `false` and changes nothing; the first call
writes exactly when it returns `true`; across both calls at most one KV
write happens. -/
theorem claim_flush_idempotent (m : ManagerState) :
    (saveIfDirty (saveIfDirty m).2).1 = false
    ∧ (saveIfDirty (saveIfDirty m).2).2 = (saveIfDirty m).2
    ∧ (saveIfDirty m).2.kv.putCount
        = m.kv.putCount + (if (saveIfDirty m).1 then 1 else 0)
    ∧ (saveIfDirty (saveIfDirty m).2).2.kv.putCount ≤ m.kv.putCount + 1 := by
  cases hd : m.isDirty <;> cases hc : m.cachedState <;>
    simp [saveIfDirty, hd, hc, kvPut]

/-!
C10.  The `/status` endpoint's `lastChecked` field is always absent: the
handler reads `lastCheckedAt`, a property the stored state type never
defines and no operation ever writes.
-/

/-- Every state the program can store keeps the (never-declared, never
written) `lastCheckedAt` property absent on both sources. -/
theorem reachable_no_lastChecked (st : PostedState) (h : ReachableState st) :
    st.youtube.lastCheckedAt = none ∧ st.wwfcNews.lastCheckedAt = none := by
  induction h with
  | base => exact ⟨rfl, rfl⟩
  | markOne st s id now _ ih =>
      cases s <;> simpa [markAsPostedState, getSource, setSource] using ih
  | markMany st s ids now _ ih =>
      cases s <;> simpa [markManyAsPostedState, getSource, setSource] using ih
  | record st s now _ ih =>
      cases s <;> simpa [recordFailureState, getSource, setSource] using ih
  | reset st s now _ ih =>
      cases s <;> simp only [resetFailuresState, getSource, setSource] <;>
        split <;> simp_all

/-- C10 (confirmed): for every storable state, the `/status` response's
`lastChecked` field is absent (`undefined`) for both sources, because the
handler reads `lastCheckedAt` while the state type only ever carries
`lastUpdatedAt`. -/
theorem claim_status_lastChecked_absent (st : PostedState)
    (h : ReachableState st) :
    (statusView st).1.lastChecked = none
    ∧ (statusView st).2.lastChecked = none := by
  simpa [statusView] using reachable_no_lastChecked st h

/-- Witness for C10 at the default (first-run) state. -/
theorem claim_status_lastChecked_absent_witness :
    (statusView DEFAULT_STATE).1.lastChecked = none
    ∧ (statusView DEFAULT_STATE).2.lastChecked = none :=
  claim_status_lastChecked_absent DEFAULT_STATE ReachableState.base

/-!
C8.  `resetFailures` on an already-zero counter never triggers a store
write (state, dirty flag and `lastUpdatedAt` untouched); on a non-zero
counter it always does.  The sync variant likewise marks dirty only when
the counter was non-zero.
-/

/-- C8 (confirmed): when the source's `consecutiveFailures` is zero, the
legacy `resetFailures` performs no KV write and leaves the KV contents, the
dirty flag and the observable state (hence `lastUpdatedAt`) unchanged; when
it is non-zero it performs exactly one KV write.  `resetFailuresSync`
returns the manager untouched when the counter is zero and only sets the
dirty flag (no immediate write) when it is non-zero. -/
theorem claim_resetFailures_frame (m : ManagerState) (source : SourceKey)
    (now : String) :
    ((getSource (getState m).1 source).consecutiveFailures = 0 →
        (resetFailures m source now).kv = m.kv
        ∧ (resetFailures m source now).isDirty = m.isDirty
        ∧ (getState (resetFailures m source now)).1 = (getState m).1)
    ∧ (0 < (getSource (getState m).1 source).consecutiveFailures →
        (resetFailures m source now).kv.putCount = m.kv.putCount + 1)
    ∧ (∀ st, m.cachedState = some st →
        ((getSource st source).consecutiveFailures = 0 →
            resetFailuresSync m source now = some m)
        ∧ (0 < (getSource st source).consecutiveFailures →
            ∀ m', resetFailuresSync m source now = some m' →
              m'.isDirty = true ∧ m'.kv = m.kv)) := by
  refine ⟨?_, ?_, ?_⟩
  · intro h0
    have hres : resetFailures m source now = (getState m).2 := by
      simp [resetFailures, h0]
    rw [hres]
    refine ⟨getState_kv m, getState_isDirty m, ?_⟩
    rw [getState_idem]
  · intro hpos
    have hres : resetFailures m source now
        = saveState (getState m).2 (resetFailuresState (getState m).1 source now) := by
      simp [resetFailures, hpos]
    rw [hres]
    simp [saveState, kvPut, getState_kv]
  · intro st hst
    constructor
    · intro h0
      simp [resetFailuresSync, hst, h0]
    · intro hpos m' hm'
      have : some ({ m with
          cachedState := some (resetFailuresState st source now)
          isDirty := true } : ManagerState) = some m' := by
        simpa [resetFailuresSync, hst, hpos] using hm'
      cases this
      exact ⟨rfl, rfl⟩

/-- A loaded source state whose `wwfcNews` counter is non-zero. -/
def stB : PostedState :=
  { youtube := DEFAULT_SOURCE_STATE
    wwfcNews :=
      { postedIds := [], lastUpdatedAt := "t0", consecutiveFailures := 2
        lastCheckedAt := none } }

/-- A manager with `stB` loaded into the cache. -/
def mgrB : ManagerState :=
  { kv := { value := some stB, putCount := 0 }
    cachedState := some stB
    isDirty := false }

/-- Witness for C8: a zero counter (youtube in `mgrB`) gives no write and no
change; a non-zero counter (wwfcNews in `mgrB`) gives exactly one write. -/
theorem claim_resetFailures_frame_witness :
    ((getSource (getState mgrB).1 SourceKey.youtube).consecutiveFailures = 0)
    ∧ ((resetFailures mgrB SourceKey.youtube "T").kv = mgrB.kv
       ∧ (resetFailures mgrB SourceKey.youtube "T").isDirty = mgrB.isDirty
       ∧ (getState (resetFailures mgrB SourceKey.youtube "T")).1
           = (getState mgrB).1)
    ∧ (0 < (getSource (getState mgrB).1 SourceKey.wwfcNews).consecutiveFailures)
    ∧ ((resetFailures mgrB SourceKey.wwfcNews "T").kv.putCount
         = mgrB.kv.putCount + 1) :=
  ⟨by decide,
   (claim_resetFailures_frame mgrB SourceKey.youtube "T").1 (by decide),
   by decide,
   (claim_resetFailures_frame mgrB SourceKey.wwfcNews "T").2.1 (by decide)⟩

/-!
C6.  After any sequence of `markPosted` calls from a state whose
`postedIds` fits in `MAX_POSTED_IDS`, the list never exceeds
`MAX_POSTED_IDS` entries, and truncation drops the oldest entries (the
tail of the newest-first list).
-/

/-- One `markManyAsPostedSync` call keeps `postedIds` within the bound. -/
theorem markManySync_length_le (m m' : ManagerState) (s : SourceKey)
    (ids : List String) (now : String)
    (h : markManyAsPostedSync m s ids now = some m')
    (hlen : (postedIdsOf m s).length ≤ MAX_POSTED_IDS) :
    (postedIdsOf m' s).length ≤ MAX_POSTED_IDS := by
  cases hc : m.cachedState with
  | none => simp [markManyAsPostedSync, hc] at h
  | some st =>
    by_cases hn : ids.length = 0
    · have hm : m' = m := by
        simpa [markManyAsPostedSync, hc, hn] using h.symm
      rw [hm]; exact hlen
    · have hm : m' = { m with
          cachedState := some (markManyAsPostedState st s ids now)
          isDirty := true } := by
        simpa [markManyAsPostedSync, hc, hn] using h.symm
      rw [hm]
      simp [postedIdsOf, markManyAsPostedState, getSource_setSource_same,
        List.length_take]

/-- The bound is preserved across any sequence of calls. -/
theorem applyMarkMany_length_le (s : SourceKey)
    (calls : List (List String × String)) :
    ∀ m m', (postedIdsOf m s).length ≤ MAX_POSTED_IDS →
      applyMarkMany s m calls = some m' →
      (postedIdsOf m' s).length ≤ MAX_POSTED_IDS := by
  induction calls with
  | nil =>
      intro m m' h happ
      have hm : m' = m := by simpa [applyMarkMany] using happ.symm
      rw [hm]; exact h
  | cons c rest ih =>
      intro m m' h happ
      cases hstep : markManyAsPostedSync m s c.1 c.2 with
      | none => simp [applyMarkMany, hstep] at happ
      | some m1 =>
          exact ih m1 m' (markManySync_length_le m m1 s c.1 c.2 hstep h)
            (by simpa [applyMarkMany, hstep] using happ)

/-- C6 (confirmed): starting from a state whose `postedIds` has at most
`MAX_POSTED_IDS` entries, any sequence of `markManyAsPostedSync` calls
keeps it within `MAX_POSTED_IDS`; moreover each single call keeps a prefix
of the prepended list `ids ++ old` (newest first), so the entries dropped
by truncation are exactly a tail, i.e. the oldest entries. -/
theorem claim_postedIds_bounded (m : ManagerState) (s : SourceKey)
    (calls : List (List String × String)) (mEnd : ManagerState)
    (ids : List String) (now : String) (mOne : ManagerState)
    (hlen : (postedIdsOf m s).length ≤ MAX_POSTED_IDS)
    (happ : applyMarkMany s m calls = some mEnd)
    (hone : markManyAsPostedSync m s ids now = some mOne) :
    (postedIdsOf mEnd s).length ≤ MAX_POSTED_IDS
    ∧ ∃ dropped, ids ++ postedIdsOf m s = postedIdsOf mOne s ++ dropped := by
  refine ⟨applyMarkMany_length_le s calls m mEnd hlen happ, ?_⟩
  cases hc : m.cachedState with
  | none => simp [markManyAsPostedSync, hc] at hone
  | some st =>
    by_cases hn : ids.length = 0
    · have hids : ids = [] := List.length_eq_zero.mp hn
      have hm : mOne = m := by
        simpa [markManyAsPostedSync, hc, hn] using hone.symm
      exact ⟨[], by simp [hids, hm]⟩
    · have hm : mOne = { m with
          cachedState := some (markManyAsPostedState st s ids now)
          isDirty := true } := by
        simpa [markManyAsPostedSync, hc, hn] using hone.symm
      refine ⟨(ids ++ postedIdsOf m s).drop MAX_POSTED_IDS, ?_⟩
      have hview : postedIdsOf mOne s
          = (ids ++ postedIdsOf m s).take MAX_POSTED_IDS := by
        rw [hm]
        simp [postedIdsOf, markManyAsPostedState, getSource_setSource_same, hc]
      rw [hview, List.take_append_drop]

/-- A manager with the default state loaded (first run: nothing in KV). -/
def mgrEmpty : ManagerState :=
  { kv := { value := none, putCount := 0 }
    cachedState := some DEFAULT_STATE
    isDirty := false }

/-- Concrete call sequence for the C6 witness. -/
def callsC6 : List (List String × String) := [(["a"], "T"), (["b", "c"], "U")]

/-- Result of folding `callsC6` from `mgrEmpty`. -/
def mEndC6 : ManagerState :=
  (applyMarkMany SourceKey.youtube mgrEmpty callsC6).getD mgrEmpty

/-- Result of the single `["a"]` call from `mgrEmpty`. -/
def mOneC6 : ManagerState :=
  (markManyAsPostedSync mgrEmpty SourceKey.youtube ["a"] "T").getD mgrEmpty

/-- Witness for C6 at a concrete two-call sequence. -/
theorem claim_postedIds_bounded_witness :
    ((postedIdsOf mgrEmpty SourceKey.youtube).length ≤ MAX_POSTED_IDS)
    ∧ (applyMarkMany SourceKey.youtube mgrEmpty callsC6 = some mEndC6)
    ∧ (markManyAsPostedSync mgrEmpty SourceKey.youtube ["a"] "T" = some mOneC6)
    ∧ ((postedIdsOf mEndC6 SourceKey.youtube).length ≤ MAX_POSTED_IDS
       ∧ ∃ dropped, ["a"] ++ postedIdsOf mgrEmpty SourceKey.youtube
           = postedIdsOf mOneC6 SourceKey.youtube ++ dropped) :=
  ⟨by decide, by decide, by decide,
   claim_postedIds_bounded mgrEmpty SourceKey.youtube callsC6 mEndC6 ["a"] "T"
     mOneC6 (by decide) (by decide) (by decide)⟩

/-!
C7.  The claim "markPosted then isAlreadyPosted is always true for every ID
in the list" fails when the list is longer than `MAX_POSTED_IDS`: the
truncation in `markManyAsPostedSync` drops the surplus ids immediately.
It holds for every id within the first `MAX_POSTED_IDS` entries of the
list (in particular for every id when the list has at most
`MAX_POSTED_IDS` entries).
-/

/-- An id list with `MAX_POSTED_IDS + 1` entries whose last id is dropped
by the truncation inside `markManyAsPostedSync`. -/
def bigIds : List String := List.replicate MAX_POSTED_IDS "a" ++ ["b"]

/-- C7 counterexample: `"b"` is in the marked list, yet immediately after
`markManyAsPostedSync` the session reports it as not posted — the claim as
stated (every ID of the list) is false on the code. -/
theorem claim_markPosted_isPosted_counterexample :
    ("b" ∈ bigIds)
    ∧ ((markManyAsPostedSync mgrEmpty SourceKey.youtube bigIds "T").bind
         (fun m2 => isPostedSync m2 SourceKey.youtube "b") = some false) := by
  constructor
  · simp [bigIds]
  · have hn : bigIds.length = MAX_POSTED_IDS + 1 := by
      simp [bigIds]
    have hmark : markManyAsPostedSync mgrEmpty SourceKey.youtube bigIds "T"
        = some { mgrEmpty with
                 cachedState := some (markManyAsPostedState DEFAULT_STATE
                   SourceKey.youtube bigIds "T")
                 isDirty := true } := by
      simp [markManyAsPostedSync, mgrEmpty, hn]
    rw [hmark]
    have hpost : (getSource (markManyAsPostedState DEFAULT_STATE
        SourceKey.youtube bigIds "T") SourceKey.youtube).postedIds
        = List.replicate MAX_POSTED_IDS "a" := by
      simp only [markManyAsPostedState, getSource_setSource_same]
      have h1 : (List.replicate MAX_POSTED_IDS "a").length = MAX_POSTED_IDS :=
        List.length_replicate _ _
      have h0 : (getSource DEFAULT_STATE SourceKey.youtube).postedIds
          = [] := rfl
      rw [h0, List.append_nil]
      show (List.replicate MAX_POSTED_IDS "a" ++ ["b"]).take MAX_POSTED_IDS
          = List.replicate MAX_POSTED_IDS "a"
      exact List.take_left' h1
    have hcontains : ∀ n, (List.replicate n "a").contains "b" = false := by
      intro n
      simp [List.mem_replicate]
    simp [isPostedSync, hpost, hcontains MAX_POSTED_IDS]

/-- C7 (corrected): with a loaded session, for every id within the first
`MAX_POSTED_IDS` entries of the marked list, `markManyAsPostedSync`
followed immediately by `isPostedSync` for that id returns `true`. -/
theorem claim_markPosted_then_isPosted (m : ManagerState) (s : SourceKey)
    (ids : List String) (now : String) (id : String) (m' : ManagerState)
    (hid : id ∈ ids.take MAX_POSTED_IDS)
    (hmark : markManyAsPostedSync m s ids now = some m') :
    isPostedSync m' s id = some true := by
  cases hc : m.cachedState with
  | none => simp [markManyAsPostedSync, hc] at hmark
  | some st =>
    by_cases hn : ids.length = 0
    · rw [List.length_eq_zero.mp hn] at hid
      simp at hid
    · have hm : m' = { m with
          cachedState := some (markManyAsPostedState st s ids now)
          isDirty := true } := by
        simpa [markManyAsPostedSync, hc, hn] using hmark.symm
      rw [hm]
      simp only [isPostedSync, markManyAsPostedState, getSource_setSource_same,
        Option.some.injEq]
      apply contains_eq_true_of_mem
      rw [List.take_append_eq_append_take]
      exact List.mem_append_left _ hid

/-- Result of marking `["a", "b"]` from `mgrEmpty` (for the C7 witness). -/
def mC7 : ManagerState :=
  (markManyAsPostedSync mgrEmpty SourceKey.youtube ["a", "b"] "T").getD mgrEmpty

/-- Witness for C7 (corrected) at a two-id list. -/
theorem claim_markPosted_then_isPosted_witness :
    ("b" ∈ (["a", "b"] : List String).take MAX_POSTED_IDS)
    ∧ (markManyAsPostedSync mgrEmpty SourceKey.youtube ["a", "b"] "T"
         = some mC7)
    ∧ isPostedSync mC7 SourceKey.youtube "b" = some true :=
  ⟨by decide, by decide,
   claim_markPosted_then_isPosted mgrEmpty SourceKey.youtube ["a", "b"] "T"
     "b" mC7 (by decide) (by decide)⟩

/-!
C3.  The merged publish batch is the concatenation of both sources' new
item lists re-sorted ascending by `publishedAt` (oldest first).
-/

/-- A video published at 10:00 (36000000 ms after midnight). -/
def exVideo : ContentItem :=
  { id := "vex", type := ContentType.video, title := "video", url := "uv"
    description := none, thumbnailUrl := none, publishedAt := 36000000
    source := ContentSource.youtube }

/-- An article published at 09:30 (34200000 ms after midnight). -/
def exArticle : ContentItem :=
  { id := "aex", type := ContentType.article, title := "article", url := "ua"
    description := none, thumbnailUrl := none, publishedAt := 34200000
    source := ContentSource.wwfcNews }

/-- The batch handed to the publisher is always either empty or a
`sortByPublishedAt` result. -/
theorem publishPhase_published (input : CycleInput) (now : String)
    (items : List ContentItem) (m2 : ManagerState)
    (ev : List SentryEvent) :
    (publishPhase input now items m2 ev).published = []
    ∨ (publishPhase input now items m2 ev).published = sortByPublishedAt items := by
  by_cases h0 : items.length = 0
  · exact Or.inl (by simp [publishPhase, h0])
  · by_cases hl : input.loginOk
    · exact Or.inr (by simp [publishPhase, h0, hl])
    · exact Or.inl (by simp [publishPhase, h0, hl])

theorem processNewContent_published (input : CycleInput) (kv : KVStore)
    (now : String) :
    (processNewContent input kv now).published = []
    ∨ ∃ l, (processNewContent input kv now).published = sortByPublishedAt l := by
  simp only [processNewContent]
  rcases publishPhase_published input now
      ((videoPhase input (createStateManager kv) now).1
        ++ (articlePhase input
              (videoPhase input (createStateManager kv) now).2.1 now).1)
      (articlePhase input
        (videoPhase input (createStateManager kv) now).2.1 now).2.1
      ((videoPhase input (createStateManager kv) now).2.2
        ++ (articlePhase input
              (videoPhase input (createStateManager kv) now).2.1 now).2.2)
    with h | h
  · exact Or.inl h
  · exact Or.inr ⟨_, h⟩

/-- C3 (confirmed): the merged publish batch
`sortByPublishedAt (videos ++ articles)` is a permutation of the
concatenation of the two per-source lists, is sorted ascending by
`publishedAt`, every batch `processNewContent` actually publishes is so
sorted, and on the concrete example a 10:00 video merged with a 09:30
article is published as [article, video]. -/
theorem claim_merge_chronological (videos articles : List ContentItem) :
    List.Perm (sortByPublishedAt (videos ++ articles)) (videos ++ articles)
    ∧ List.Sorted publishLE (sortByPublishedAt (videos ++ articles))
    ∧ (∀ input kv now,
        List.Sorted publishLE ((processNewContent input kv now).published))
    ∧ sortByPublishedAt [exVideo, exArticle] = [exArticle, exVideo] := by
  refine ⟨List.perm_insertionSort publishLE _,
    List.sorted_insertionSort publishLE _, ?_, by decide⟩
  intro input kv now
  rcases processNewContent_published input kv now with h | ⟨l, h⟩
  · rw [h]; exact List.sorted_nil
  · rw [h]; exact List.sorted_insertionSort publishLE l

/-!
C4.  After a publish batch, exactly the successfully published ids are
added to `postedIds`: the final list starts with precisely the successful
ids of that source and everything after them is a prefix of the prior
list, so nothing else is added and failed items are absent.  The only
hypothesis is the per-batch bound (at most `MAX_POSTED_IDS` successful
ids per source, far above the 10/20-item fetch caps); the prior state is
unconstrained, so the result covers commits at the 1000-entry cap where
truncation drops old entries.
-/

theorem getSource_youtube (st : PostedState) :
    getSource st SourceKey.youtube = st.youtube := rfl

theorem getSource_wwfcNews (st : PostedState) :
    getSource st SourceKey.wwfcNews = st.wwfcNews := rfl

theorem getSource_setSource_ne (st : PostedState) (s s' : SourceKey)
    (ss : SourceState) (h : s ≠ s') :
    getSource (setSource st s ss) s' = getSource st s' := by
  cases s <;> cases s' <;> simp_all [getSource, setSource]

/-- Normal form of the marked source's `postedIds` after a guarded commit:
the committed ids prepended to the prior list, truncated to the bound. -/
theorem condMark_postedIds (m : ManagerState) (s : SourceKey)
    (ids : List String) (now : String) (h0 : 0 < ids.length) :
    (getSource (getState
        (if 0 < ids.length then markManyAsPosted m s ids now else m)).1
      s).postedIds
      = (ids ++ (getSource (getState m).1 s).postedIds).take MAX_POSTED_IDS := by
  rw [if_pos h0]
  have hn : ¬ ids.length = 0 := by omega
  have hres : (getState (markManyAsPosted m s ids now)).1
      = markManyAsPostedState (getState m).1 s ids now := by
    simp [markManyAsPosted, hn, getState, saveState]
  rw [hres]
  simp only [markManyAsPostedState, getSource_setSource_same]

/-- A legacy `markManyAsPosted` leaves the other source untouched. -/
theorem mark_view_other (m : ManagerState) (s s' : SourceKey)
    (ids : List String) (now : String) (hss : s ≠ s') :
    getSource (getState (markManyAsPosted m s ids now)).1 s'
      = getSource (getState m).1 s' := by
  by_cases hn : ids.length = 0
  · simp [markManyAsPosted, hn]
  · have hres : (getState (markManyAsPosted m s ids now)).1
        = markManyAsPostedState (getState m).1 s ids now := by
      simp [markManyAsPosted, hn, getState, saveState]
    rw [hres]
    simp only [markManyAsPostedState]
    exact getSource_setSource_ne _ s s' _ hss

/-- The committed ids sit verbatim at the front of the final list. -/
theorem condMark_view_take (m : ManagerState) (s : SourceKey)
    (ids : List String) (now : String) (h : ids.length ≤ MAX_POSTED_IDS) :
    (getSource (getState
        (if 0 < ids.length then markManyAsPosted m s ids now else m)).1
      s).postedIds.take ids.length = ids := by
  by_cases h0 : 0 < ids.length
  · rw [condMark_postedIds m s ids now h0, List.take_take,
      Nat.min_eq_left h, List.take_left]
  · have hids : ids = [] := List.length_eq_zero.mp (by omega)
    rw [if_neg h0, hids]
    simp

/-- Below the committed ids, the final list is a prefix of the prior list:
nothing besides the committed ids was added. -/
theorem condMark_view_drop (m : ManagerState) (s : SourceKey)
    (ids : List String) (now : String) (h : ids.length ≤ MAX_POSTED_IDS) :
    ∃ rest, (getSource (getState m).1 s).postedIds
      = (getSource (getState
          (if 0 < ids.length then markManyAsPosted m s ids now else m)).1
        s).postedIds.drop ids.length ++ rest := by
  by_cases h0 : 0 < ids.length
  · rw [condMark_postedIds m s ids now h0, List.take_append_eq_append_take,
      List.take_of_length_le h, List.drop_left]
    exact ⟨(getSource (getState m).1 s).postedIds.drop
        (MAX_POSTED_IDS - ids.length),
      (List.take_append_drop _ _).symm⟩
  · have hlen : ids.length = 0 := by omega
    rw [if_neg h0]
    exact ⟨[], by simp [hlen]⟩

/-- Every id in the final list was either just committed or already
present before the commit. -/
theorem condMark_view_subset (m : ManagerState) (s : SourceKey)
    (ids : List String) (now : String) (id : String)
    (hid : id ∈ (getSource (getState
        (if 0 < ids.length then markManyAsPosted m s ids now else m)).1
      s).postedIds) :
    id ∈ ids ∨ id ∈ (getSource (getState m).1 s).postedIds := by
  by_cases h0 : 0 < ids.length
  · rw [condMark_postedIds m s ids now h0] at hid
    exact List.mem_append.mp ((List.take_sublist _ _).subset hid)
  · rw [if_neg h0] at hid
    exact Or.inr hid

/-- Conditional-commit version of `mark_view_other`. -/
theorem condMark_view_other (m : ManagerState) (s s' : SourceKey)
    (ids : List String) (now : String) (hss : s ≠ s') :
    getSource (getState
        (if 0 < ids.length then markManyAsPosted m s ids now else m)).1 s'
      = getSource (getState m).1 s' := by
  by_cases h0 : 0 < ids.length
  · rw [if_pos h0]; exact mark_view_other m s s' ids now hss
  · rw [if_neg h0]

/-- C4 (confirmed): after `processPostResults`, each source's `postedIds`
begins with exactly the ids of that source's successful posts (in order),
everything after them is a prefix of the prior list (so nothing but the
successful ids was added), every successful id is present, and every
present id was either a success or previously posted — hence a failed,
previously unposted id is absent.  The prior state is unconstrained; the
only hypotheses bound the batch itself (at most `MAX_POSTED_IDS`
successful ids per source, which the 10/20-item fetch caps guarantee). -/
theorem claim_commit_success_only (results : List PostResult)
    (m : ManagerState) (now : String)
    (hv : (successfulVideoIds results).length ≤ MAX_POSTED_IDS)
    (ha : (successfulArticleIds results).length ≤ MAX_POSTED_IDS) :
    ((getState (processPostResults results m now).1).1.youtube.postedIds.take
        (successfulVideoIds results).length = successfulVideoIds results)
    ∧ (∃ rest, (getState m).1.youtube.postedIds
        = (getState (processPostResults results m now).1).1.youtube.postedIds.drop
            (successfulVideoIds results).length ++ rest)
    ∧ ((getState (processPostResults results m now).1).1.wwfcNews.postedIds.take
        (successfulArticleIds results).length = successfulArticleIds results)
    ∧ (∃ rest, (getState m).1.wwfcNews.postedIds
        = (getState (processPostResults results m now).1).1.wwfcNews.postedIds.drop
            (successfulArticleIds results).length ++ rest)
    ∧ (∀ id ∈ successfulVideoIds results,
        id ∈ (getState (processPostResults results m now).1).1.youtube.postedIds)
    ∧ (∀ id ∈ successfulArticleIds results,
        id ∈ (getState (processPostResults results m now).1).1.wwfcNews.postedIds)
    ∧ (∀ id ∈ (getState (processPostResults results m now).1).1.youtube.postedIds,
        id ∈ successfulVideoIds results ∨ id ∈ (getState m).1.youtube.postedIds)
    ∧ (∀ id ∈ (getState (processPostResults results m now).1).1.wwfcNews.postedIds,
        id ∈ successfulArticleIds results
          ∨ id ∈ (getState m).1.wwfcNews.postedIds) := by
  have hfinal : (processPostResults results m now).1
      = (if 0 < (successfulArticleIds results).length then
          markManyAsPosted
            (if 0 < (successfulVideoIds results).length then
              markManyAsPosted m SourceKey.youtube
                (successfulVideoIds results) now
            else m)
            SourceKey.wwfcNews (successfulArticleIds results) now
        else
          (if 0 < (successfulVideoIds results).length then
            markManyAsPosted m SourceKey.youtube
              (successfulVideoIds results) now
          else m)) := by
    simp only [processPostResults]
  have hM1w : getSource (getState
      (if 0 < (successfulVideoIds results).length then
        markManyAsPosted m SourceKey.youtube (successfulVideoIds results) now
      else m)).1 SourceKey.wwfcNews
      = getSource (getState m).1 SourceKey.wwfcNews :=
    condMark_view_other m SourceKey.youtube SourceKey.wwfcNews
      (successfulVideoIds results) now (by simp)
  have c1 : (getState (processPostResults results m now).1).1.youtube.postedIds.take
      (successfulVideoIds results).length = successfulVideoIds results := by
    rw [hfinal]
    simp only [← getSource_youtube]
    rw [condMark_view_other _ SourceKey.wwfcNews SourceKey.youtube
      (successfulArticleIds results) now (by simp)]
    exact condMark_view_take m SourceKey.youtube
      (successfulVideoIds results) now hv
  have c2 : ∃ rest, (getState m).1.youtube.postedIds
      = (getState (processPostResults results m now).1).1.youtube.postedIds.drop
          (successfulVideoIds results).length ++ rest := by
    rw [hfinal]
    simp only [← getSource_youtube]
    rw [condMark_view_other _ SourceKey.wwfcNews SourceKey.youtube
      (successfulArticleIds results) now (by simp)]
    exact condMark_view_drop m SourceKey.youtube
      (successfulVideoIds results) now hv
  have c3 : (getState (processPostResults results m now).1).1.wwfcNews.postedIds.take
      (successfulArticleIds results).length = successfulArticleIds results := by
    rw [hfinal]
    simp only [← getSource_wwfcNews]
    exact condMark_view_take _ SourceKey.wwfcNews
      (successfulArticleIds results) now ha
  have c4 : ∃ rest, (getState m).1.wwfcNews.postedIds
      = (getState (processPostResults results m now).1).1.wwfcNews.postedIds.drop
          (successfulArticleIds results).length ++ rest := by
    rw [hfinal]
    simp only [← getSource_wwfcNews]
    obtain ⟨rest, hr⟩ := condMark_view_drop
      (if 0 < (successfulVideoIds results).length then
        markManyAsPosted m SourceKey.youtube (successfulVideoIds results) now
      else m)
      SourceKey.wwfcNews (successfulArticleIds results) now ha
    rw [hM1w] at hr
    exact ⟨rest, hr⟩
  refine ⟨c1, c2, c3, c4, ?_, ?_, ?_, ?_⟩
  · intro id hid
    rw [← c1] at hid
    exact (List.take_sublist _ _).subset hid
  · intro id hid
    rw [← c3] at hid
    exact (List.take_sublist _ _).subset hid
  · intro id hid
    rw [hfinal] at hid
    simp only [← getSource_youtube] at hid
    rw [condMark_view_other _ SourceKey.wwfcNews SourceKey.youtube
      (successfulArticleIds results) now (by simp)] at hid
    exact condMark_view_subset m SourceKey.youtube
      (successfulVideoIds results) now id hid
  · intro id hid
    rw [hfinal] at hid
    simp only [← getSource_wwfcNews] at hid
    have h8 := condMark_view_subset
      (if 0 < (successfulVideoIds results).length then
        markManyAsPosted m SourceKey.youtube (successfulVideoIds results) now
      else m)
      SourceKey.wwfcNews (successfulArticleIds results) now id hid
    rw [hM1w] at h8
    exact h8

/-- First video of the C4 witness batch (publish succeeds). -/
def vid1 : ContentItem :=
  { id := "v1", type := ContentType.video, title := "V1", url := "u1"
    description := none, thumbnailUrl := none, publishedAt := 1
    source := ContentSource.youtube }

/-- Second video of the C4 witness batch (publish fails). -/
def vid2 : ContentItem :=
  { id := "v2", type := ContentType.video, title := "V2", url := "u2"
    description := none, thumbnailUrl := none, publishedAt := 2
    source := ContentSource.youtube }

/-- Article of the C4 witness batch (publish succeeds). -/
def art3 : ContentItem :=
  { id := "a3", type := ContentType.article, title := "A3", url := "u3"
    description := none, thumbnailUrl := none, publishedAt := 3
    source := ContentSource.wwfcNews }

/-- Three-item batch whose second item failed to publish. -/
def results4 : List PostResult :=
  [{ success := true, item := vid1 },
   { success := false, item := vid2 },
   { success := true, item := art3 }]

/-- Witness for C4: of the 3-item batch with the 2nd failing, exactly items
1 and 3's ids end up in `postedIds`; item 2's id does not. -/
theorem claim_commit_success_only_witness :
    ((successfulVideoIds results4).length ≤ MAX_POSTED_IDS)
    ∧ ((successfulArticleIds results4).length ≤ MAX_POSTED_IDS)
    ∧ ((getState (processPostResults results4 mgrEmpty "T").1).1.youtube.postedIds.take
        (successfulVideoIds results4).length = successfulVideoIds results4)
    ∧ ((getState (processPostResults results4 mgrEmpty "T").1).1.wwfcNews.postedIds.take
        (successfulArticleIds results4).length = successfulArticleIds results4)
    ∧ ("v1" ∈
        (getState (processPostResults results4 mgrEmpty "T").1).1.youtube.postedIds)
    ∧ ("a3" ∈
        (getState (processPostResults results4 mgrEmpty "T").1).1.wwfcNews.postedIds)
    ∧ ("v2" ∉
        (getState (processPostResults results4 mgrEmpty "T").1).1.youtube.postedIds) := by
  have h := claim_commit_success_only results4 mgrEmpty "T" (by decide) (by decide)
  obtain ⟨c1, c2, c3, c4, hs1, hs2, hsub1, hsub2⟩ := h
  refine ⟨by decide, by decide, c1, c3, hs1 "v1" (by decide),
    hs2 "a3" (by decide), ?_⟩
  intro hmem
  rcases hsub1 "v2" hmem with hc | hc <;> revert hc <;> decide

/-!
C1.  The spec says a reconciliation cycle writes the durable store at most
once, via a single flush at the end.  `processNewContent` instead uses the
legacy write-through operations (`recordFailure`, `resetFailures`,
`markManyAsPosted`), each of which performs its own KV `put`, and never
calls `saveIfDirty`: a cycle in which both fetches fail performs two KV
writes, both mid-cycle.
-/

/-- A KV namespace with nothing stored yet. -/
def emptyKV : KVStore := { value := none, putCount := 0 }

/-- A cycle in which both source fetches fail. -/
def bothFailInput : CycleInput :=
  { videoFetch := Except.error ()
    articleFetch := Except.error ()
    loginOk := true
    publishOk := fun _ => true }

/-- C1 (code bug): the cycle in which both fetches fail performs two KV
writes (one per `recordFailure` call), not at most one; and every
`recordFailure` call performs its own immediate KV write, so writes happen
mid-cycle rather than through one final flush. -/
theorem claim_single_flush_violated :
    ((processNewContent bothFailInput emptyKV "T").manager.kv.putCount = 2)
    ∧ (∀ (m : ManagerState) (s : SourceKey) (now : String),
        (recordFailure m s now).2.kv.putCount = m.kv.putCount + 1) := by
  refine ⟨by decide, ?_⟩
  intro m s now
  simp [recordFailure, saveState, kvPut, getState_kv]

/-!
C2.  Three consecutive `recordFailure` calls return 1, 2, 3 and escalation
fires on reaching 3 — but the `>=` comparison in `processNewContent` makes
escalation fire again on every later consecutive failure, not exactly
once.
-/

/-- A cycle in which the video fetch fails and the article fetch returns
nothing. -/
def failVideoInput : CycleInput :=
  { videoFetch := Except.error ()
    articleFetch := Except.ok []
    loginOk := true
    publishOk := fun _ => true }

/-- A cycle in which both fetches succeed with no items. -/
def okEmptyInput : CycleInput :=
  { videoFetch := Except.ok []
    articleFetch := Except.ok []
    loginOk := true
    publishOk := fun _ => true }

/-- C2 counterexample: four consecutive cycles with a failing video fetch
and no reset in between escalate to Sentry twice — on the call returning 3
and again on the call returning 4 — so escalation is not "exactly once". -/
theorem claim_failure_escalation_counterexample :
    (runCycles failVideoInput "T" 4 emptyKV).2 =
      [[], [], [SentryEvent.fetchFailure "youtube" 3],
       [SentryEvent.fetchFailure "youtube" 4]] := by decide

/-- C2 (corrected): a failing cycle returns the incremented count
`c + 1` and escalates exactly when `c + 1 >= ALERT_FAILURE_THRESHOLD`
(hence on the third consecutive failure and on every one after it), and a
successful cycle resets the stored counter to zero, after which escalation
requires reaching the threshold again. -/
theorem claim_failure_escalation (st : PostedState) (p : Nat) (now : String) :
    ((processNewContent failVideoInput { value := some st, putCount := p } now).events
        = (if ALERT_FAILURE_THRESHOLD ≤ st.youtube.consecutiveFailures + 1 then
            [SentryEvent.fetchFailure "youtube" (st.youtube.consecutiveFailures + 1)]
          else []))
    ∧ (∀ st',
        (processNewContent failVideoInput { value := some st, putCount := p }
            now).manager.kv.value = some st' →
          st'.youtube.consecutiveFailures = st.youtube.consecutiveFailures + 1)
    ∧ (∀ st',
        (processNewContent okEmptyInput { value := some st, putCount := p }
            now).manager.kv.value = some st' →
          st'.youtube.consecutiveFailures = 0) := by
  refine ⟨?_, ?_, ?_⟩
  · simp [processNewContent, videoPhase, articlePhase, publishPhase,
      failVideoInput, createStateManager, recordFailure, getState, saveState,
      kvPut, fetchNewArticles, filterNewItems, resetFailures,
      sortByPublishedAt, recordFailureState, resetFailuresState, getSource,
      setSource]
  · intro st' h
    by_cases hw : 0 < st.wwfcNews.consecutiveFailures <;>
      simp [processNewContent, videoPhase, articlePhase, publishPhase,
        failVideoInput, createStateManager, recordFailure, getState, saveState,
        kvPut, fetchNewArticles, filterNewItems, resetFailures,
        sortByPublishedAt, recordFailureState, resetFailuresState, getSource,
        setSource, hw] at h <;>
      subst h <;> simp
  · intro st' h
    by_cases hy : 0 < st.youtube.consecutiveFailures <;>
      by_cases hw : 0 < st.wwfcNews.consecutiveFailures <;>
        simp [processNewContent, videoPhase, articlePhase, publishPhase,
          okEmptyInput, createStateManager, recordFailure, getState, saveState,
          kvPut, fetchNewVideos, fetchNewArticles, filterNewItems,
          resetFailures, sortByPublishedAt, recordFailureState,
          resetFailuresState, getSource, setSource, hy, hw] at h <;>
        (try subst h) <;> simp_all

end WwfcBot
